import Mathlib

/-!
A formal model of the financial-dashboard logic in `src/st_show.py` of the
`st_assets_revenue` repository.  The dataframe is modelled as a list of rows;
dataframe cells are modelled by `Cell` (a numeric value, a text value, or a
missing value `na`).  Exact rational arithmetic stands in for the floating
point arithmetic of the original; `Option ℚ` models a float column that can
hold `NaN`.  Column names are transliterated as follows:

* `股票名称`  → `entity_name`
* `报告期`    → `period`
* `销售净利率` → `net_profit_margin_raw`, derived `销售净利率_数值` → `net_profit_margin`
* `总资产周转率` → `asset_turnover`
* `总资产净利率` → `return_on_assets_raw`, derived `总资产净利率_数值` → `return_on_assets`
-/

/-- A dataframe cell: a numeric value, a text value, or the missing marker
(`NaN` in pandas). -/
inductive Cell where
  | num (q : ℚ)
  | txt (s : String)
  | na
deriving DecidableEq

/-- Whether a cell is the missing-value marker (`pd.isna`). -/
def Cell.isNA : Cell → Bool
  | .na => true
  | _ => false

/-- ASCII digit test, by code point. -/
def isAsciiDigit (c : Char) : Bool := 48 ≤ c.toNat && c.toNat ≤ 57

/-- Numeric value of a list of ASCII digits. -/
def digitsVal (cs : List Char) : ℕ := cs.foldl (fun a c => 10 * a + (c.toNat - 48)) 0

/-- Parse a nonempty all-digit character list. -/
def parseDigits (cs : List Char) : Option ℕ :=
  if cs.isEmpty then none else if cs.all isAsciiDigit then some (digitsVal cs) else none

/-- Whitespace test, by code point (space, tab, newline, carriage return). -/
def isSpaceChar (c : Char) : Bool :=
  c.toNat = 32 || c.toNat = 9 || c.toNat = 10 || c.toNat = 13

/-- Strip leading and trailing whitespace. -/
def trimChars (cs : List Char) : List Char :=
  ((cs.dropWhile isSpaceChar).reverse.dropWhile isSpaceChar).reverse

/-- Not the code point of a decimal dot. -/
def notDot (c : Char) : Bool := c.toNat != 46

/-- Parse an unsigned decimal literal (`"12"`, `"12.5"`, `"12."`, `".5"`). -/
def parseUnsignedNum (cs : List Char) : Option ℚ :=
  let ip := cs.takeWhile notDot
  match cs.dropWhile notDot with
  | [] => (parseDigits ip).map (fun n => (n : ℚ))
  | _ :: fp =>
    if fp.all notDot then
      match ip.isEmpty, fp.isEmpty with
      | true, _ => (parseDigits fp).map (fun f => (f : ℚ) / (10 : ℚ) ^ fp.length)
      | false, true => (parseDigits ip).map (fun n => (n : ℚ))
      | false, false =>
        match parseDigits ip, parseDigits fp with
        | some n, some f => some ((n : ℚ) + (f : ℚ) / (10 : ℚ) ^ fp.length)
        | _, _ => none
    else none

/-- Parse a signed decimal string, the string case of `pd.to_numeric` with
coercion of failures to missing (code point 45 is the minus sign, 43 the
plus sign). -/
def strToNum (cs : List Char) : Option ℚ :=
  match trimChars cs with
  | [] => none
  | c :: rest =>
    if c.toNat = 45 then (parseUnsignedNum rest).map (fun q => -q)
    else if c.toNat = 43 then parseUnsignedNum rest
    else parseUnsignedNum (c :: rest)

/-- `pd.to_numeric(cell, errors=coerce)`: a numeric cell is kept, a text cell
is parsed as a decimal literal, anything else becomes missing. -/
def parseNumeric (c : Cell) : Option ℚ :=
  match c with
  | .num q => some q
  | .txt s => strToNum s.data
  | .na => none

/-- Rebuild a cell from an optional numeric value (a parse failure is the
missing marker `NaN`). -/
def cellOfNum (x : Option ℚ) : Cell :=
  match x with
  | some q => Cell.num q
  | none => Cell.na

/-- `astype(str)` on one cell: text is unchanged, a number is rendered, and
the missing marker renders as the pandas string form of `NaN`. -/
def cellStr (c : Cell) : String :=
  match c with
  | .txt s => s
  | .num q => toString q
  | .na => ("nan")

/-- One dataframe row.  The two derived columns (`…_数值`) are float columns
and are modelled as `Option ℚ` (`none` = `NaN`); they are (re)computed by
`preprocess_row`. -/
structure Row where
  entity_name : String
  period : Cell
  net_profit_margin_raw : Cell
  asset_turnover : Cell
  return_on_assets_raw : Cell
  net_profit_margin : Option ℚ
  return_on_assets : Option ℚ
deriving DecidableEq

/-- The per-row action of `preprocess_data` (src/st_show.py lines 84-100):
derive the two percentage fractions from the raw columns, coerce the
turnover column to numeric, and coerce the period to a string. -/
def preprocess_row (r : Row) : Row :=
  { r with
    net_profit_margin := (parseNumeric r.net_profit_margin_raw).map (fun q => q / 100),
    return_on_assets := (parseNumeric r.return_on_assets_raw).map (fun q => q / 100),
    asset_turnover := cellOfNum (parseNumeric r.asset_turnover),
    period := Cell.txt (cellStr r.period) }

/-- `preprocess_data` (src/st_show.py lines 84-100), applied to the whole
table.  The column-presence guards of the source are always true in this
model, since `Row` carries every column. -/
def preprocess_data (df : List Row) : List Row := df.map preprocess_row

/-- Equality test between a cell and a selector string, as evaluated by the
pandas comparison `df[col] == selected`: only a text cell can match. -/
def cellEqStr (c : Cell) (p : String) : Bool :=
  match c with
  | .txt s => s == p
  | _ => false

/-- Value of the derived return-on-assets column.  Rows reaching the chart
computations have passed the `dropna` filter, so the default is never used. -/
def roaVal (r : Row) : ℚ := r.return_on_assets.getD 0

/-- Value of the derived net-profit-margin column (same remark as `roaVal`). -/
def npmVal (r : Row) : ℚ := r.net_profit_margin.getD 0

/-- The period/selection filter of `create_bubble_chart`
(src/st_show.py lines 105-108). -/
def filter_rows (df : List Row) (selected_period : String) (selected_stocks : List String) :
    List Row :=
  df.filter (fun r => cellEqStr r.period selected_period && selected_stocks.contains r.entity_name)

/-- Whether a row survives `dropna` on the three chart columns
(src/st_show.py line 114). -/
def row_complete (r : Row) : Bool :=
  !(Cell.isNA r.asset_turnover) && r.net_profit_margin.isSome && r.return_on_assets.isSome

/-- The rows a chart is actually built from: period/selection filter followed
by the missing-value drop. -/
def surviving_rows (df : List Row) (selected_period : String) (selected_stocks : List String) :
    List Row :=
  (filter_rows df selected_period selected_stocks).filter row_complete

/-- Python `int()` applied to a rational: truncation toward zero. -/
def pyInt (q : ℚ) : ℤ := if 0 ≤ q then ⌊q⌋ else ⌈q⌉

/-- Maximum of a list of rationals (`Series.max` on a NaN-free column); the
value on the empty list is irrelevant to the code paths that use it. -/
def listMax : List ℚ → ℚ
  | [] => 0
  | x :: xs => xs.foldl max x

/-- Minimum of a list of rationals (`Series.min` on a NaN-free column). -/
def listMin : List ℚ → ℚ
  | [] => 0
  | x :: xs => xs.foldl min x

/-- An rgba color: three integer channels and a rational alpha. -/
structure RGBA where
  r : ℤ
  g : ℤ
  b : ℤ
  a : ℚ
deriving DecidableEq

/-- Fill and border colors of one bubble (src/st_show.py lines 129-141):
missing values get a fixed neutral gray, otherwise the value is normalized
against the filtered min/range and linearly interpolated from blue
`(0,102,255)` to red `(255,60,60)`, with the border 40 darker per channel,
clamped at 0. -/
def point_colors (v : Option ℚ) (min_val val_range : ℚ) : RGBA × RGBA :=
  match v with
  | none => (⟨200, 200, 200, 6/10⟩, ⟨120, 120, 120, 1⟩)
  | some val =>
    let norm := (val - min_val) / val_range
    let r := pyInt (0 + (255 - 0) * norm)
    let g := pyInt (102 + (60 - 102) * norm)
    let b := pyInt (255 + (60 - 255) * norm)
    (⟨r, g, b, 7/10⟩, ⟨max (r - 40) 0, max (g - 40) 0, max (b - 40) 0, 19/20⟩)

/-- Bubble diameter of one row (src/st_show.py line 121). -/
def bubble_size_of (r : Row) : ℚ := |roaVal r| * 500 + 20

/-- Python `len` on a string: number of characters (code points). -/
def pyLen (s : String) : ℕ := s.data.length

/-- Python slicing `s[:n]`: the first `n` characters. -/
def pyTake (s : String) (n : ℕ) : String := String.mk (s.data.take n)

/-- Label text and font size of one bubble, by diameter tier
(src/st_show.py lines 152-169). -/
def label_and_size (bubble_size : ℚ) (stock_name : String) : String × ℕ :=
  if bubble_size < 50 then
    (if pyLen stock_name > 4 then pyTake stock_name 3 ++ ("...") else stock_name, 8)
  else if bubble_size < 80 then
    (if pyLen stock_name > 6 then pyTake stock_name 5 ++ ("...") else stock_name, 10)
  else
    (stock_name, 12)

/-- The per-point data of the emitted chart specification: the parallel
sequences handed to the scatter trace, plus the title
(src/st_show.py lines 172-228). -/
structure ChartSpec where
  xs : List Cell
  ys : List ℚ
  sizes : List ℚ
  colors : List RGBA
  edge_colors : List RGBA
  text_labels : List String
  text_sizes : List ℕ
  customdata : List String
  title : String
deriving DecidableEq

/-- Assembly of the chart specification from the fully filtered rows
(src/st_show.py lines 119-228). -/
def build_spec (filtered_df : List Row) (selected_period : String) : ChartSpec :=
  let vals := filtered_df.map (fun r => r.return_on_assets)
  let max_val := if vals.isEmpty then 1 else listMax (filtered_df.map roaVal)
  let min_val := if vals.isEmpty then 0 else listMin (filtered_df.map roaVal)
  let val_range := if max_val ≠ min_val then max_val - min_val else 1
  { xs := filtered_df.map (fun r => r.asset_turnover),
    ys := filtered_df.map (fun r => npmVal r * 100),
    sizes := filtered_df.map bubble_size_of,
    colors := filtered_df.map (fun r => (point_colors r.return_on_assets min_val val_range).1),
    edge_colors :=
      filtered_df.map (fun r => (point_colors r.return_on_assets min_val val_range).2),
    text_labels :=
      filtered_df.map (fun r => (label_and_size (bubble_size_of r) r.entity_name).1),
    text_sizes :=
      filtered_df.map (fun r => (label_and_size (bubble_size_of r) r.entity_name).2),
    customdata := filtered_df.map (fun r => r.entity_name),
    title := ("服装行业总资产收益率分析 ") ++ selected_period }

/-- `create_bubble_chart` (src/st_show.py lines 102-229): filter, return
`None` when nothing remains (before or after the missing-value drop), else
build the chart specification. -/
def create_bubble_chart (df : List Row) (selected_period : String)
    (selected_stocks : List String) : Option ChartSpec :=
  let filtered1 := filter_rows df selected_period selected_stocks
  if filtered1.isEmpty then none
  else
    let filtered_df := filtered1.filter row_complete
    if filtered_df.isEmpty then none
    else some (build_spec filtered_df selected_period)

/-- The normalized color values of the surviving rows, as computed on
src/st_show.py lines 126-134 (range 1 when all values coincide). -/
def normed_vals (df : List Row) (selected_period : String) (selected_stocks : List String) :
    List ℚ :=
  let rows := surviving_rows df selected_period selected_stocks
  let vals := rows.map roaVal
  let max_val := if vals.isEmpty then 1 else listMax vals
  let min_val := if vals.isEmpty then 0 else listMin vals
  let val_range := if max_val ≠ min_val then max_val - min_val else 1
  vals.map (fun v => (v - min_val) / val_range)

/-- Round to the nearest integer, ties to the even integer, the rounding of
Python fixed-point formatting. -/
def roundHalfEven (q : ℚ) : ℤ :=
  let f := ⌊q⌋
  if q - f < 1/2 then f
  else if 1/2 < q - f then f + 1
  else if f % 2 = 0 then f else f + 1

/-- Exactly `k` decimal digit characters of `n` (most significant first,
padded with leading zeros); code point 48 is the digit zero. -/
def natDigits : ℕ → ℕ → List Char
  | 0, _ => []
  | k + 1, n => natDigits k (n / 10) ++ [Char.ofNat (48 + n % 10)]

/-- Python fixed-point formatting `f"{q:.{digits}f}"` over exact rationals:
round to `digits` decimals and print with exactly `digits` fractional
digits. -/
def fixedDec (digits : ℕ) (q : ℚ) : String :=
  let scaled := roundHalfEven (q * (10 : ℚ) ^ digits)
  let sign := if scaled < 0 then ("-") else ("")
  let m := scaled.natAbs
  sign ++ Nat.repr (m / 10 ^ digits) ++ (".") ++ String.mk (natDigits digits (m % 10 ^ digits))

/-- The percentage display lambda of the detail table
(src/st_show.py lines 286-287): a present fraction is shown as
`value*100` with two decimals and a percent sign, a missing one as `N/A`. -/
def format_pct (x : Option ℚ) : String :=
  match x with
  | some v => fixedDec 2 (v * 100) ++ ("%")
  | none => ("N/A")

/-- The turnover display lambda of the detail table (src/st_show.py
line 288), applied after `preprocess_data`, where the column holds only
numeric or missing cells: three decimals, or `N/A` when missing. -/
def format_turnover (c : Cell) : String :=
  match c with
  | .num q => fixedDec 3 q
  | _ => ("N/A")

/-- Lexicographic comparison of character lists by code point, the order
Python uses to compare strings. -/
def strLeB : List Char → List Char → Bool
  | [], _ => true
  | _ :: _, [] => false
  | c :: cs, d :: ds =>
    if c.toNat < d.toNat then true
    else if c.toNat = d.toNat then strLeB cs ds
    else false

/-- The larger of two strings in the lexicographic order (the left argument
wins ties). -/
def maxStrB (x y : String) : String := if strLeB y.data x.data then x else y

/-- The lexicographically largest string of a list (empty string on the
empty list). -/
def listMaxStr (l : List String) : String := l.foldr maxStrB ("")

/-- Insertion into a descending-sorted list of strings. -/
def insertDesc (a : String) : List String → List String
  | [] => [a]
  | b :: bs => if strLeB b.data a.data then a :: b :: bs else b :: insertDesc a bs

/-- `sorted(·, reverse=True)` on strings: descending insertion sort. -/
def sortDesc (l : List String) : List String := l.foldr insertDesc []

/-- The distinct periods of the table, sorted descending
(src/st_show.py line 247). -/
def periods_of (df : List Row) : List String :=
  sortDesc ((df.map (fun r => cellStr r.period)).dedup)

/-- The default period offered by the sidebar (src/st_show.py line 248):
the literal `20241231` when present, else the first (largest) sorted
period. -/
def default_period (df : List Row) : String :=
  let periods := periods_of df
  if periods.contains ("20241231") then ("20241231") else periods.headD ("")

/-- The claim reading of the default: the most recent (lexicographically
largest) of the distinct periods present in the table. -/
def most_recent_period (df : List Row) : String :=
  listMaxStr ((df.map (fun r => cellStr r.period)).dedup)

/-- A preprocessed test row in period `P1` with the three chart metrics
present. -/
def mkExRow (name : String) (turnover npm roa : ℚ) : Row :=
  { entity_name := name,
    period := Cell.txt ("P1"),
    net_profit_margin_raw := Cell.num (npm * 100),
    asset_turnover := Cell.num turnover,
    return_on_assets_raw := Cell.num (roa * 100),
    net_profit_margin := some npm,
    return_on_assets := some roa }

/-- The three-entity scenario table of the specification: `A`, `B`, `C` in
period `P1` with return-on-assets fractions `0.01`, `0.05`, `0.09`. -/
def exDf : List Row :=
  [mkExRow ("A") 1 (1/10) (1/100),
   mkExRow ("B") (12/10) (2/10) (5/100),
   mkExRow ("C") (8/10) (3/10) (9/100)]

/-- The full selection of the scenario table. -/
def exStocks : List String := [("A"), ("B"), ("C")]

/-- An unpreprocessed row: numeric period, one parsable raw percentage, one
missing raw percentage, missing turnover. -/
def exRawRow : Row :=
  { entity_name := ("D"),
    period := Cell.num 20241231,
    net_profit_margin_raw := Cell.num (25/2),
    asset_turnover := Cell.na,
    return_on_assets_raw := Cell.na,
    net_profit_margin := none,
    return_on_assets := none }

/-- A row whose only relevant datum is its period string. -/
def mkPeriodRow (p : String) : Row :=
  { entity_name := ("X"),
    period := Cell.txt p,
    net_profit_margin_raw := Cell.na,
    asset_turnover := Cell.na,
    return_on_assets_raw := Cell.na,
    net_profit_margin := none,
    return_on_assets := none }

/-- A table whose periods are `20241231` and the strictly larger
`20991231`. -/
def exDf8 : List Row := [mkPeriodRow ("20241231"), mkPeriodRow ("20991231")]

theorem parseNumeric_cellOfNum (x : Option ℚ) : parseNumeric (cellOfNum x) = x := by
  cases x <;> rfl

theorem cellStr_txt (s : String) : cellStr (Cell.txt s) = s := rfl

theorem preprocess_row_idem (r : Row) : preprocess_row (preprocess_row r) = preprocess_row r := by
  simp [preprocess_row, parseNumeric_cellOfNum, cellStr_txt]

theorem foldl_max_init_le (xs : List ℚ) : ∀ x : ℚ, x ≤ xs.foldl max x := by
  induction xs with
  | nil => intro x; exact le_refl x
  | cons y ys ih =>
    intro x
    exact le_trans (le_max_left x y) (ih (max x y))

theorem foldl_max_mem_le (xs : List ℚ) : ∀ (x a : ℚ), a ∈ xs → a ≤ xs.foldl max x := by
  induction xs with
  | nil => intro x a h; cases h
  | cons y ys ih =>
    intro x a h
    simp only [List.foldl_cons]
    rcases List.mem_cons.mp h with h | h
    · subst h
      exact le_trans (le_max_right x a) (foldl_max_init_le ys (max x a))
    · exact ih (max x y) a h

theorem le_listMax {l : List ℚ} {a : ℚ} (h : a ∈ l) : a ≤ listMax l := by
  cases l with
  | nil => cases h
  | cons x xs =>
    rcases List.mem_cons.mp h with h | h
    · exact h ▸ foldl_max_init_le xs x
    · exact foldl_max_mem_le xs x a h

theorem le_foldl_min_init (xs : List ℚ) : ∀ x : ℚ, xs.foldl min x ≤ x := by
  induction xs with
  | nil => intro x; exact le_refl x
  | cons y ys ih =>
    intro x
    exact le_trans (ih (min x y)) (min_le_left x y)

theorem foldl_min_le_mem (xs : List ℚ) : ∀ (x a : ℚ), a ∈ xs → xs.foldl min x ≤ a := by
  induction xs with
  | nil => intro x a h; cases h
  | cons y ys ih =>
    intro x a h
    simp only [List.foldl_cons]
    rcases List.mem_cons.mp h with h | h
    · subst h
      exact le_trans (le_foldl_min_init ys (min x a)) (min_le_right x a)
    · exact ih (min x y) a h

theorem listMin_le {l : List ℚ} {a : ℚ} (h : a ∈ l) : listMin l ≤ a := by
  cases l with
  | nil => cases h
  | cons x xs =>
    rcases List.mem_cons.mp h with h | h
    · exact h ▸ le_foldl_min_init xs x
    · exact foldl_min_le_mem xs x a h

theorem create_some {df : List Row} {p : String} {s : List String} {spec : ChartSpec}
    (h : create_bubble_chart df p s = some spec) :
    surviving_rows df p s ≠ [] ∧ spec = build_spec (surviving_rows df p s) p := by
  unfold create_bubble_chart at h
  by_cases h1 : (filter_rows df p s).isEmpty
  · simp [h1] at h
  · simp only [h1, Bool.false_eq_true, if_false] at h
    by_cases h2 : ((filter_rows df p s).filter row_complete).isEmpty
    · simp [h2] at h
    · simp only [h2, Bool.false_eq_true, if_false, Option.some.injEq] at h
      refine ⟨fun he => h2 ?_, h.symm⟩
      exact List.isEmpty_iff.mpr he

theorem create_of_ne {df : List Row} {p : String} {s : List String}
    (h : surviving_rows df p s ≠ []) :
    create_bubble_chart df p s = some (build_spec (surviving_rows df p s) p) := by
  have h2 : ((filter_rows df p s).filter row_complete).isEmpty = false := by
    rw [Bool.eq_false_iff]
    intro hh
    exact h (by simpa [surviving_rows] using List.isEmpty_iff.mp hh)
  have h1 : (filter_rows df p s).isEmpty = false := by
    rw [Bool.eq_false_iff]
    intro hh
    have hnil := List.isEmpty_iff.mp hh
    rcases List.exists_mem_of_ne_nil _ h with ⟨r, hr⟩
    have hrm : r ∈ filter_rows df p s := (List.mem_filter.mp hr).1
    rw [hnil] at hrm
    cases hrm
  unfold create_bubble_chart
  simp [h1, h2, surviving_rows]

theorem create_none_iff {df : List Row} {p : String} {s : List String} :
    create_bubble_chart df p s = none ↔ surviving_rows df p s = [] := by
  constructor
  · intro h
    by_contra hne
    rw [create_of_ne hne] at h
    cases h
  · intro h
    unfold create_bubble_chart
    by_cases h1 : (filter_rows df p s).isEmpty
    · simp [h1]
    · have h2 : ((filter_rows df p s).filter row_complete).isEmpty = true := by
        rw [List.isEmpty_iff]
        simpa [surviving_rows] using h
      simp [h1, h2]

theorem roa_of_complete {r : Row} (h : row_complete r = true) :
    r.return_on_assets = some (roaVal r) := by
  unfold row_complete at h
  rcases r with ⟨_, _, _, _, _, _, roa⟩
  cases roa with
  | none => simp at h
  | some v => rfl

theorem le_pyInt_of_le {q : ℚ} {n : ℤ} (h0 : 0 ≤ q) (h : (n : ℚ) ≤ q) : n ≤ pyInt q := by
  unfold pyInt
  rw [if_pos h0]
  exact Int.le_floor.mpr h

theorem pyInt_le_of_le {q : ℚ} {n : ℤ} (h0 : 0 ≤ q) (h : q ≤ (n : ℚ)) : pyInt q ≤ n := by
  unfold pyInt
  rw [if_pos h0]
  calc ⌊q⌋ ≤ ⌊(n : ℚ)⌋ := Int.floor_le_floor h
  _ = n := Int.floor_intCast n

theorem point_colors_some (v min_val val_range : ℚ) :
    point_colors (some v) min_val val_range =
      (⟨pyInt (255 * ((v - min_val) / val_range)),
        pyInt (102 - 42 * ((v - min_val) / val_range)),
        pyInt (255 - 195 * ((v - min_val) / val_range)), 7/10⟩,
       ⟨max (pyInt (255 * ((v - min_val) / val_range)) - 40) 0,
        max (pyInt (102 - 42 * ((v - min_val) / val_range)) - 40) 0,
        max (pyInt (255 - 195 * ((v - min_val) / val_range)) - 40) 0, 19/20⟩) := by
  have e1 : 0 + (255 - 0) * ((v - min_val) / val_range) =
      255 * ((v - min_val) / val_range) := by ring
  have e2 : 102 + (60 - 102) * ((v - min_val) / val_range) =
      102 - 42 * ((v - min_val) / val_range) := by ring
  have e3 : 255 + (60 - 255) * ((v - min_val) / val_range) =
      255 - 195 * ((v - min_val) / val_range) := by ring
  simp only [point_colors, e1, e2, e3]

theorem map_roa_ne_nil {rows : List Row} (hne : rows ≠ []) :
    (rows.map (fun r => r.return_on_assets)).isEmpty = false := by
  rw [Bool.eq_false_iff]
  intro hh
  exact hne (List.map_eq_nil_iff.mp (List.isEmpty_iff.mp hh))

theorem build_spec_colors (rows : List Row) (p : String) (hne : rows ≠ []) :
    (build_spec rows p).colors =
      rows.map (fun r => (point_colors r.return_on_assets
        (listMin (rows.map roaVal))
        (if listMax (rows.map roaVal) ≠ listMin (rows.map roaVal) then
          listMax (rows.map roaVal) - listMin (rows.map roaVal) else 1)).1) := by
  simp only [build_spec, map_roa_ne_nil hne, Bool.false_eq_true, if_false]

theorem build_spec_edge_colors (rows : List Row) (p : String) (hne : rows ≠ []) :
    (build_spec rows p).edge_colors =
      rows.map (fun r => (point_colors r.return_on_assets
        (listMin (rows.map roaVal))
        (if listMax (rows.map roaVal) ≠ listMin (rows.map roaVal) then
          listMax (rows.map roaVal) - listMin (rows.map roaVal) else 1)).2) := by
  simp only [build_spec, map_roa_ne_nil hne, Bool.false_eq_true, if_false]

theorem normed_vals_eq (df : List Row) (p : String) (s : List String)
    (hne : surviving_rows df p s ≠ []) :
    normed_vals df p s =
      ((surviving_rows df p s).map roaVal).map (fun v =>
        (v - listMin ((surviving_rows df p s).map roaVal)) /
        (if listMax ((surviving_rows df p s).map roaVal) ≠
            listMin ((surviving_rows df p s).map roaVal) then
          listMax ((surviving_rows df p s).map roaVal) -
            listMin ((surviving_rows df p s).map roaVal) else 1)) := by
  have hmap : ((surviving_rows df p s).map roaVal).isEmpty = false := by
    rw [Bool.eq_false_iff]
    intro hh
    exact hne (List.map_eq_nil_iff.mp (List.isEmpty_iff.mp hh))
  simp only [normed_vals, hmap, Bool.false_eq_true, if_false]

theorem norm_bounds {rows : List Row} {r : Row} (hr : r ∈ rows) :
    0 ≤ (roaVal r - listMin (rows.map roaVal)) /
        (if listMax (rows.map roaVal) ≠ listMin (rows.map roaVal) then
          listMax (rows.map roaVal) - listMin (rows.map roaVal) else 1) ∧
    (roaVal r - listMin (rows.map roaVal)) /
        (if listMax (rows.map roaVal) ≠ listMin (rows.map roaVal) then
          listMax (rows.map roaVal) - listMin (rows.map roaVal) else 1) ≤ 1 := by
  have hv : roaVal r ∈ rows.map roaVal := List.mem_map_of_mem roaVal hr
  have hmin : listMin (rows.map roaVal) ≤ roaVal r := listMin_le hv
  have hmax : roaVal r ≤ listMax (rows.map roaVal) := le_listMax hv
  by_cases hne : listMax (rows.map roaVal) ≠ listMin (rows.map roaVal)
  · rw [if_pos hne]
    have hlt : listMin (rows.map roaVal) < listMax (rows.map roaVal) :=
      lt_of_le_of_ne (le_trans hmin hmax) (Ne.symm hne)
    have hpos : 0 < listMax (rows.map roaVal) - listMin (rows.map roaVal) := by linarith
    constructor
    · exact div_nonneg (by linarith) (le_of_lt hpos)
    · rw [div_le_one hpos]
      linarith
  · rw [if_neg hne]
    rw [not_ne_iff] at hne
    have hv' : roaVal r = listMin (rows.map roaVal) := le_antisymm (hne ▸ hmax) hmin
    rw [hv']
    norm_num

theorem fill_bounds {t : ℚ} (h0 : 0 ≤ t) (h1 : t ≤ 1) :
    0 ≤ pyInt (255 * t) ∧ pyInt (255 * t) ≤ 255 ∧
    60 ≤ pyInt (102 - 42 * t) ∧ pyInt (102 - 42 * t) ≤ 102 ∧
    60 ≤ pyInt (255 - 195 * t) ∧ pyInt (255 - 195 * t) ≤ 255 := by
  have hr0 : (0 : ℚ) ≤ 255 * t := by linarith
  have hg0 : (0 : ℚ) ≤ 102 - 42 * t := by linarith
  have hb0 : (0 : ℚ) ≤ 255 - 195 * t := by linarith
  refine ⟨le_pyInt_of_le hr0 (by push_cast; linarith), pyInt_le_of_le hr0 (by push_cast; linarith),
    le_pyInt_of_le hg0 (by push_cast; linarith), pyInt_le_of_le hg0 (by push_cast; linarith),
    le_pyInt_of_le hb0 (by push_cast; linarith), pyInt_le_of_le hb0 (by push_cast; linarith)⟩

theorem natDigits_length (k : ℕ) : ∀ n, (natDigits k n).length = k := by
  induction k with
  | zero => intro n; rfl
  | succ k ih => intro n; simp [natDigits, ih]

theorem headD_insertDesc (a : String) (l : List String) :
    (insertDesc a l).headD ("") = maxStrB a (l.headD ("")) := by
  cases l with
  | nil => rfl
  | cons b bs =>
    unfold insertDesc maxStrB
    simp only [List.headD_cons]
    by_cases hba : strLeB b.data a.data
    · rw [if_pos hba, if_pos hba]
      simp only [List.headD_cons]
    · rw [if_neg hba, if_neg hba]
      simp only [List.headD_cons]

theorem headD_sortDesc (l : List String) : (sortDesc l).headD ("") = listMaxStr l := by
  induction l with
  | nil => rfl
  | cons a as ih =>
    unfold sortDesc listMaxStr at *
    simp only [List.foldr_cons]
    rw [headD_insertDesc, ih]

/-- C2: every point of a returned chart specification has bubble diameter
`abs(return_on_assets) * 500 + 20` exactly; a zero value gives diameter 20,
and negating the value does not change the diameter. -/
theorem C2_bubble_size (df : List Row) (p : String) (s : List String) (spec : ChartSpec)
    (h : create_bubble_chart df p s = some spec) :
    spec.sizes = (surviving_rows df p s).map (fun r => |roaVal r| * 500 + 20) ∧
    (∀ r ∈ surviving_rows df p s, roaVal r = 0 → bubble_size_of r = 20) ∧
    (∀ r r' : Row, roaVal r = -(roaVal r') → bubble_size_of r = bubble_size_of r') := by
  obtain ⟨hne, hspec⟩ := create_some h
  subst hspec
  refine ⟨rfl, ?_, ?_⟩
  · intro r _ h0
    unfold bubble_size_of
    rw [h0]
    norm_num
  · intro r r' hrr
    unfold bubble_size_of
    rw [hrr, abs_neg]

/-- Witness for C2 at the three-entity scenario table, where the computed
diameters are 25, 45 and 65. -/
theorem C2_bubble_size_witness :
    ((build_spec (surviving_rows exDf ("P1") exStocks) ("P1")).sizes =
      (surviving_rows exDf ("P1") exStocks).map (fun r => |roaVal r| * 500 + 20) ∧
    (∀ r ∈ surviving_rows exDf ("P1") exStocks, roaVal r = 0 → bubble_size_of r = 20) ∧
    (∀ r r' : Row, roaVal r = -(roaVal r') → bubble_size_of r = bubble_size_of r')) ∧
    (build_spec (surviving_rows exDf ("P1") exStocks) ("P1")).sizes = [25, 45, 65] := by
  have h := C2_bubble_size exDf ("P1") exStocks
    (build_spec (surviving_rows exDf ("P1") exStocks) ("P1")) (create_of_ne (by decide))
  refine ⟨h, ?_⟩
  rw [h.1]
  have hs : surviving_rows exDf ("P1") exStocks = exDf := rfl
  rw [hs]
  norm_num [exDf, mkExRow, roaVal, abs_of_nonneg]

/-- C4: an empty selection, a filter matching zero rows, or a filtered set
that loses every row to the missing-value drop all yield `None` (the NoData
signal); otherwise the chart is built exactly from the matching rows that
carry all three metrics, so an incomplete row is dropped without failing
the rest. -/
theorem C4_nodata_and_drop (df : List Row) (p : String) (s : List String) :
    (s = [] → create_bubble_chart df p s = none) ∧
    (filter_rows df p s = [] → create_bubble_chart df p s = none) ∧
    (create_bubble_chart df p s = none ↔ surviving_rows df p s = []) ∧
    (∀ spec, create_bubble_chart df p s = some spec →
      spec.customdata = (surviving_rows df p s).map (fun r => r.entity_name) ∧
      ∀ r ∈ surviving_rows df p s, row_complete r = true) := by
  refine ⟨?_, ?_, create_none_iff, ?_⟩
  · intro hs
    subst hs
    apply create_none_iff.mpr
    unfold surviving_rows filter_rows
    have h1 : List.filter
        (fun r => cellEqStr r.period p && List.contains [] r.entity_name) df = [] := by
      apply List.filter_eq_nil_iff.mpr
      intro a _
      simp [List.contains]
    rw [h1]
    rfl
  · intro hf
    apply create_none_iff.mpr
    unfold surviving_rows
    rw [hf]
    rfl
  · intro spec hspec
    obtain ⟨hne, rfl⟩ := create_some hspec
    exact ⟨rfl, fun r hr => (List.mem_filter.mp hr).2⟩

/-- Witness for C4: the scenario table with an empty selection yields
`None`, and with the full selection the chart points are exactly the
surviving rows. -/
theorem C4_nodata_and_drop_witness :
    create_bubble_chart exDf ("P1") ([] : List String) = none ∧
    (build_spec (surviving_rows exDf ("P1") exStocks) ("P1")).customdata =
      (surviving_rows exDf ("P1") exStocks).map (fun r => r.entity_name) := by
  constructor
  · exact (C4_nodata_and_drop exDf ("P1") []).1 rfl
  · exact ((C4_nodata_and_drop exDf ("P1") exStocks).2.2.2
      (build_spec (surviving_rows exDf ("P1") exStocks) ("P1")) (create_of_ne (by decide))).1

/-- C5: preprocessing derives each percentage fraction as the parsed raw
value divided by 100 exactly when the raw cell parses as numeric, leaves it
missing exactly when the raw cell is absent or unparsable, and processes
every row (nothing raises, nothing is dropped). -/
theorem C5_percent_normalization (t : List Row) (r : Row) (q : ℚ) :
    (parseNumeric r.net_profit_margin_raw = some q →
      (preprocess_row r).net_profit_margin = some (q / 100)) ∧
    ((preprocess_row r).net_profit_margin = none ↔
      parseNumeric r.net_profit_margin_raw = none) ∧
    (parseNumeric r.return_on_assets_raw = some q →
      (preprocess_row r).return_on_assets = some (q / 100)) ∧
    ((preprocess_row r).return_on_assets = none ↔
      parseNumeric r.return_on_assets_raw = none) ∧
    preprocess_data t = t.map preprocess_row ∧
    (preprocess_data t).length = t.length := by
  refine ⟨?_, ?_, ?_, ?_, rfl, by simp [preprocess_data]⟩
  · intro h
    simp [preprocess_row, h]
  · simp [preprocess_row, Option.map_eq_none']
  · intro h
    simp [preprocess_row, h]
  · simp [preprocess_row, Option.map_eq_none']

/-- Witness for C5 at a concrete unpreprocessed row: a raw percentage of
12.5 becomes the fraction 0.125, and the derived field of a missing raw
cell is missing. -/
theorem C5_percent_normalization_witness :
    (preprocess_row exRawRow).net_profit_margin = some ((25/2 : ℚ) / 100) ∧
    ((preprocess_row exRawRow).return_on_assets = none ↔
      parseNumeric exRawRow.return_on_assets_raw = none) :=
  ⟨(C5_percent_normalization [exRawRow] exRawRow (25/2)).1 rfl,
   (C5_percent_normalization [exRawRow] exRawRow (25/2)).2.2.2.1⟩

/-- C6: preprocessing is idempotent — re-deriving the fractions from the
unchanged raw columns, re-parsing the already-numeric turnover and
re-stringifying the already-string period leave the table fixed. -/
theorem C6_preprocess_idempotent (t : List Row) :
    preprocess_data (preprocess_data t) = preprocess_data t := by
  unfold preprocess_data
  rw [List.map_map]
  exact List.map_congr_left fun r _ => preprocess_row_idem r

/-- C10: whenever a chart specification is returned, all per-point
sequences have the same length — the number of surviving rows — and the
i-th entry of each is derived from the i-th surviving row. -/
theorem C10_parallel_lengths (df : List Row) (p : String) (s : List String) (spec : ChartSpec)
    (h : create_bubble_chart df p s = some spec) :
    spec.xs.length = (surviving_rows df p s).length ∧
    spec.ys.length = (surviving_rows df p s).length ∧
    spec.sizes.length = (surviving_rows df p s).length ∧
    spec.colors.length = (surviving_rows df p s).length ∧
    spec.edge_colors.length = (surviving_rows df p s).length ∧
    spec.text_labels.length = (surviving_rows df p s).length ∧
    spec.text_sizes.length = (surviving_rows df p s).length ∧
    spec.customdata.length = (surviving_rows df p s).length ∧
    (∀ i (hi : i < (surviving_rows df p s).length),
      spec.xs[i]? = some ((surviving_rows df p s).get ⟨i, hi⟩).asset_turnover ∧
      spec.ys[i]? = some (npmVal ((surviving_rows df p s).get ⟨i, hi⟩) * 100) ∧
      spec.sizes[i]? = some (bubble_size_of ((surviving_rows df p s).get ⟨i, hi⟩)) ∧
      spec.colors[i]? = some ((point_colors
        ((surviving_rows df p s).get ⟨i, hi⟩).return_on_assets
        (listMin ((surviving_rows df p s).map roaVal))
        (if listMax ((surviving_rows df p s).map roaVal) ≠
            listMin ((surviving_rows df p s).map roaVal) then
          listMax ((surviving_rows df p s).map roaVal) -
            listMin ((surviving_rows df p s).map roaVal) else 1)).1) ∧
      spec.edge_colors[i]? = some ((point_colors
        ((surviving_rows df p s).get ⟨i, hi⟩).return_on_assets
        (listMin ((surviving_rows df p s).map roaVal))
        (if listMax ((surviving_rows df p s).map roaVal) ≠
            listMin ((surviving_rows df p s).map roaVal) then
          listMax ((surviving_rows df p s).map roaVal) -
            listMin ((surviving_rows df p s).map roaVal) else 1)).2) ∧
      spec.text_labels[i]? = some ((label_and_size
        (bubble_size_of ((surviving_rows df p s).get ⟨i, hi⟩))
        ((surviving_rows df p s).get ⟨i, hi⟩).entity_name).1) ∧
      spec.text_sizes[i]? = some ((label_and_size
        (bubble_size_of ((surviving_rows df p s).get ⟨i, hi⟩))
        ((surviving_rows df p s).get ⟨i, hi⟩).entity_name).2) ∧
      spec.customdata[i]? = some ((surviving_rows df p s).get ⟨i, hi⟩).entity_name) := by
  obtain ⟨hne, hspec⟩ := create_some h
  subst hspec
  have hc := build_spec_colors (surviving_rows df p s) p hne
  have he := build_spec_edge_colors (surviving_rows df p s) p hne
  refine ⟨by simp [build_spec], by simp [build_spec], by simp [build_spec],
    by simp [build_spec], by simp [build_spec], by simp [build_spec],
    by simp [build_spec], by simp [build_spec], ?_⟩
  intro i hi
  refine ⟨?_, ?_, ?_, ?_, ?_, ?_, ?_, ?_⟩
  · simp [build_spec, List.getElem?_map, List.getElem?_eq_getElem hi]
  · simp [build_spec, List.getElem?_map, List.getElem?_eq_getElem hi]
  · simp [build_spec, List.getElem?_map, List.getElem?_eq_getElem hi]
  · rw [hc]
    simp [List.getElem?_map, List.getElem?_eq_getElem hi]
  · rw [he]
    simp [List.getElem?_map, List.getElem?_eq_getElem hi]
  · simp [build_spec, List.getElem?_map, List.getElem?_eq_getElem hi]
  · simp [build_spec, List.getElem?_map, List.getElem?_eq_getElem hi]
  · simp [build_spec, List.getElem?_map, List.getElem?_eq_getElem hi]

/-- C3: label text and font size of every returned point follow the
three diameter tiers (below 50: size 8 and 3-character truncation of names
longer than 4; 50 to below 80: size 10 and 5-character truncation of names
longer than 6; 80 and above: size 12 and the full name), while the hover
data always carries the full entity name. -/
theorem C3_adaptive_labels (df : List Row) (p : String) (s : List String) (spec : ChartSpec)
    (h : create_bubble_chart df p s = some spec) :
    ∀ i (hi : i < (surviving_rows df p s).length) (r : Row),
      (surviving_rows df p s).get ⟨i, hi⟩ = r →
      spec.customdata[i]? = some r.entity_name ∧
      (|roaVal r| * 500 + 20 < 50 →
        spec.text_sizes[i]? = some 8 ∧
        spec.text_labels[i]? = some (if pyLen r.entity_name > 4 then
          pyTake r.entity_name 3 ++ ("...") else r.entity_name)) ∧
      (50 ≤ |roaVal r| * 500 + 20 → |roaVal r| * 500 + 20 < 80 →
        spec.text_sizes[i]? = some 10 ∧
        spec.text_labels[i]? = some (if pyLen r.entity_name > 6 then
          pyTake r.entity_name 5 ++ ("...") else r.entity_name)) ∧
      (80 ≤ |roaVal r| * 500 + 20 →
        spec.text_sizes[i]? = some 12 ∧
        spec.text_labels[i]? = some r.entity_name) := by
  obtain ⟨hne, hspec⟩ := create_some h
  subst hspec
  intro i hi r hr
  rw [List.get_eq_getElem] at hr
  refine ⟨?_, ?_, ?_, ?_⟩
  · simp [build_spec, List.getElem?_map, List.getElem?_eq_getElem hi, hr]
  · intro h50
    have hls : label_and_size (bubble_size_of r) r.entity_name =
        (if pyLen r.entity_name > 4 then pyTake r.entity_name 3 ++ ("...")
         else r.entity_name, 8) := by
      unfold label_and_size
      rw [if_pos (show bubble_size_of r < 50 from h50)]
    constructor <;>
      simp [build_spec, List.getElem?_map, List.getElem?_eq_getElem hi, hr, hls]
  · intro h50 h80
    have hn : ¬ bubble_size_of r < 50 := not_lt.mpr h50
    have hls : label_and_size (bubble_size_of r) r.entity_name =
        (if pyLen r.entity_name > 6 then pyTake r.entity_name 5 ++ ("...")
         else r.entity_name, 10) := by
      unfold label_and_size
      rw [if_neg hn, if_pos (show bubble_size_of r < 80 from h80)]
    constructor <;>
      simp [build_spec, List.getElem?_map, List.getElem?_eq_getElem hi, hr, hls]
  · intro h80
    have hn1 : ¬ bubble_size_of r < 50 :=
      not_lt.mpr (le_trans (by norm_num) h80)
    have hn2 : ¬ bubble_size_of r < 80 := not_lt.mpr h80
    have hls : label_and_size (bubble_size_of r) r.entity_name = (r.entity_name, 12) := by
      unfold label_and_size
      rw [if_neg hn1, if_neg hn2]
    constructor <;>
      simp [build_spec, List.getElem?_map, List.getElem?_eq_getElem hi, hr, hls]

/-- Witness for C3: the first scenario point has diameter 25, hence font
size 8, the untruncated one-character label, and the full hover name. -/
theorem C3_adaptive_labels_witness :
    (build_spec (surviving_rows exDf ("P1") exStocks) ("P1")).text_sizes[0]? = some 8 ∧
    (build_spec (surviving_rows exDf ("P1") exStocks) ("P1")).text_labels[0]? = some ("A") ∧
    (build_spec (surviving_rows exDf ("P1") exStocks) ("P1")).customdata[0]? = some ("A") := by
  have h := C3_adaptive_labels exDf ("P1") exStocks
    (build_spec (surviving_rows exDf ("P1") exStocks) ("P1")) (create_of_ne (by decide))
    0 (by decide) (mkExRow ("A") 1 (1/10) (1/100)) rfl
  obtain ⟨hcd, htier1, -, -⟩ := h
  have hd : |roaVal (mkExRow ("A") 1 (1/10) (1/100))| * 500 + 20 < 50 := by
    norm_num [mkExRow, roaVal, abs_of_nonneg]
  obtain ⟨hts, htl⟩ := htier1 hd
  refine ⟨hts, ?_, hcd⟩
  rw [htl]
  decide

/-- C1: the fill colors of a returned chart are exactly the linear
blue-to-red interpolation (truncated to integers, alpha 0.7) of the
normalized values, the border colors are 40 darker per channel clamped at 0
with alpha 0.95, the normalization treats an all-equal filtered set as
range 1 so every point normalizes to 0, and the three-entity scenario
normalizes to 0, 0.5, 1. -/
theorem C1_color_mapping (df : List Row) (p : String) (s : List String) (spec : ChartSpec)
    (h : create_bubble_chart df p s = some spec) :
    spec.colors = (normed_vals df p s).map (fun t =>
      RGBA.mk (pyInt (255 * t)) (pyInt (102 - 42 * t)) (pyInt (255 - 195 * t)) (7/10)) ∧
    spec.edge_colors = (normed_vals df p s).map (fun t =>
      RGBA.mk (max (pyInt (255 * t) - 40) 0) (max (pyInt (102 - 42 * t) - 40) 0)
        (max (pyInt (255 - 195 * t) - 40) 0) (19/20)) ∧
    (listMin ((surviving_rows df p s).map roaVal) =
        listMax ((surviving_rows df p s).map roaVal) →
      normed_vals df p s = List.replicate (surviving_rows df p s).length 0) ∧
    normed_vals exDf ("P1") exStocks = [0, 1/2, 1] := by
  obtain ⟨hne, hspec⟩ := create_some h
  refine ⟨?_, ?_, ?_, ?_⟩
  · subst hspec
    rw [build_spec_colors _ _ hne, normed_vals_eq df p s hne, List.map_map, List.map_map]
    apply List.map_congr_left
    intro r hr
    have hcomp : row_complete r = true := (List.mem_filter.mp hr).2
    rw [roa_of_complete hcomp, point_colors_some]
    rfl
  · subst hspec
    rw [build_spec_edge_colors _ _ hne, normed_vals_eq df p s hne, List.map_map, List.map_map]
    apply List.map_congr_left
    intro r hr
    have hcomp : row_complete r = true := (List.mem_filter.mp hr).2
    rw [roa_of_complete hcomp, point_colors_some]
    rfl
  · intro hmm
    rw [normed_vals_eq df p s hne]
    have hzero : ∀ v ∈ (surviving_rows df p s).map roaVal,
        (v - listMin ((surviving_rows df p s).map roaVal)) /
        (if listMax ((surviving_rows df p s).map roaVal) ≠
            listMin ((surviving_rows df p s).map roaVal) then
          listMax ((surviving_rows df p s).map roaVal) -
            listMin ((surviving_rows df p s).map roaVal) else 1) = 0 := by
      intro v hv
      have h1 := listMin_le hv
      have h2 := le_listMax hv
      have hv0 : v = listMin ((surviving_rows df p s).map roaVal) :=
        le_antisymm (hmm ▸ h2) h1
      rw [hv0, sub_self, zero_div]
    have hall : ∀ b ∈ ((surviving_rows df p s).map roaVal).map (fun v =>
        (v - listMin ((surviving_rows df p s).map roaVal)) /
        (if listMax ((surviving_rows df p s).map roaVal) ≠
            listMin ((surviving_rows df p s).map roaVal) then
          listMax ((surviving_rows df p s).map roaVal) -
            listMin ((surviving_rows df p s).map roaVal) else 1)), b = 0 := by
      intro b hb
      obtain ⟨v, hv, rfl⟩ := List.mem_map.mp hb
      exact hzero v hv
    have hrep := List.eq_replicate_of_mem hall
    simpa [List.length_map] using hrep
  · have hs : surviving_rows exDf ("P1") exStocks = exDf := rfl
    simp only [normed_vals, hs]
    norm_num [exDf, mkExRow, roaVal, listMax, listMin, List.foldl, max_def, min_def]

/-- Witness for C1 at the three-entity scenario table. -/
theorem C1_color_mapping_witness :
    (build_spec (surviving_rows exDf ("P1") exStocks) ("P1")).colors =
      (normed_vals exDf ("P1") exStocks).map (fun t =>
        RGBA.mk (pyInt (255 * t)) (pyInt (102 - 42 * t)) (pyInt (255 - 195 * t)) (7/10)) ∧
    (build_spec (surviving_rows exDf ("P1") exStocks) ("P1")).edge_colors =
      (normed_vals exDf ("P1") exStocks).map (fun t =>
        RGBA.mk (max (pyInt (255 * t) - 40) 0) (max (pyInt (102 - 42 * t) - 40) 0)
          (max (pyInt (255 - 195 * t) - 40) 0) (19/20)) ∧
    (listMin ((surviving_rows exDf ("P1") exStocks).map roaVal) =
        listMax ((surviving_rows exDf ("P1") exStocks).map roaVal) →
      normed_vals exDf ("P1") exStocks =
        List.replicate (surviving_rows exDf ("P1") exStocks).length 0) ∧
    normed_vals exDf ("P1") exStocks = [0, 1/2, 1] :=
  C1_color_mapping exDf ("P1") exStocks
    (build_spec (surviving_rows exDf ("P1") exStocks) ("P1")) (create_of_ne (by decide))

/-- C9: every emitted fill color has its channels in range (red in
`[0,255]`, green in `[60,102]`, blue in `[60,255]`) and every border color
has all channels in `[0,255]`, because the normalized value always lies in
`[0,1]`. -/
theorem C9_color_channels_in_range (df : List Row) (p : String) (s : List String)
    (spec : ChartSpec) (h : create_bubble_chart df p s = some spec) :
    (∀ c ∈ spec.colors,
      0 ≤ c.r ∧ c.r ≤ 255 ∧ 60 ≤ c.g ∧ c.g ≤ 102 ∧ 60 ≤ c.b ∧ c.b ≤ 255) ∧
    (∀ c ∈ spec.edge_colors,
      0 ≤ c.r ∧ c.r ≤ 255 ∧ 0 ≤ c.g ∧ c.g ≤ 255 ∧ 0 ≤ c.b ∧ c.b ≤ 255) := by
  obtain ⟨hne, hspec⟩ := create_some h
  subst hspec
  constructor
  · intro c hc
    rw [build_spec_colors _ _ hne] at hc
    obtain ⟨r, hr, rfl⟩ := List.mem_map.mp hc
    have hcomp : row_complete r = true := (List.mem_filter.mp hr).2
    rw [roa_of_complete hcomp, point_colors_some]
    obtain ⟨h0, h1⟩ := norm_bounds hr
    obtain ⟨b1, b2, b3, b4, b5, b6⟩ := fill_bounds h0 h1
    exact ⟨b1, b2, b3, b4, b5, b6⟩
  · intro c hc
    rw [build_spec_edge_colors _ _ hne] at hc
    obtain ⟨r, hr, rfl⟩ := List.mem_map.mp hc
    have hcomp : row_complete r = true := (List.mem_filter.mp hr).2
    rw [roa_of_complete hcomp, point_colors_some]
    obtain ⟨h0, h1⟩ := norm_bounds hr
    obtain ⟨b1, b2, b3, b4, b5, b6⟩ := fill_bounds h0 h1
    refine ⟨le_max_right _ 0, max_le (by linarith) (by norm_num),
      le_max_right _ 0, max_le (by linarith) (by norm_num),
      le_max_right _ 0, max_le (by linarith) (by norm_num)⟩

/-- Witness for C9 at the three-entity scenario table. -/
theorem C9_color_channels_in_range_witness :
    (∀ c ∈ (build_spec (surviving_rows exDf ("P1") exStocks) ("P1")).colors,
      0 ≤ c.r ∧ c.r ≤ 255 ∧ 60 ≤ c.g ∧ c.g ≤ 102 ∧ 60 ≤ c.b ∧ c.b ≤ 255) ∧
    (∀ c ∈ (build_spec (surviving_rows exDf ("P1") exStocks) ("P1")).edge_colors,
      0 ≤ c.r ∧ c.r ≤ 255 ∧ 0 ≤ c.g ∧ c.g ≤ 255 ∧ 0 ≤ c.b ∧ c.b ≤ 255) :=
  C9_color_channels_in_range exDf ("P1") exStocks
    (build_spec (surviving_rows exDf ("P1") exStocks) ("P1")) (create_of_ne (by decide))

/-- Witness for C10 at the three-entity scenario table. -/
theorem C10_parallel_lengths_witness :
    (build_spec (surviving_rows exDf ("P1") exStocks) ("P1")).xs.length =
      (surviving_rows exDf ("P1") exStocks).length ∧
    (build_spec (surviving_rows exDf ("P1") exStocks) ("P1")).ys.length =
      (surviving_rows exDf ("P1") exStocks).length ∧
    (build_spec (surviving_rows exDf ("P1") exStocks) ("P1")).sizes.length =
      (surviving_rows exDf ("P1") exStocks).length ∧
    (build_spec (surviving_rows exDf ("P1") exStocks) ("P1")).colors.length =
      (surviving_rows exDf ("P1") exStocks).length ∧
    (build_spec (surviving_rows exDf ("P1") exStocks) ("P1")).edge_colors.length =
      (surviving_rows exDf ("P1") exStocks).length ∧
    (build_spec (surviving_rows exDf ("P1") exStocks) ("P1")).text_labels.length =
      (surviving_rows exDf ("P1") exStocks).length ∧
    (build_spec (surviving_rows exDf ("P1") exStocks) ("P1")).text_sizes.length =
      (surviving_rows exDf ("P1") exStocks).length ∧
    (build_spec (surviving_rows exDf ("P1") exStocks) ("P1")).customdata.length =
      (surviving_rows exDf ("P1") exStocks).length ∧
    (∀ i (hi : i < (surviving_rows exDf ("P1") exStocks).length),
      (build_spec (surviving_rows exDf ("P1") exStocks) ("P1")).xs[i]? =
        some ((surviving_rows exDf ("P1") exStocks).get ⟨i, hi⟩).asset_turnover ∧
      (build_spec (surviving_rows exDf ("P1") exStocks) ("P1")).ys[i]? =
        some (npmVal ((surviving_rows exDf ("P1") exStocks).get ⟨i, hi⟩) * 100) ∧
      (build_spec (surviving_rows exDf ("P1") exStocks) ("P1")).sizes[i]? =
        some (bubble_size_of ((surviving_rows exDf ("P1") exStocks).get ⟨i, hi⟩)) ∧
      (build_spec (surviving_rows exDf ("P1") exStocks) ("P1")).colors[i]? =
        some ((point_colors
          ((surviving_rows exDf ("P1") exStocks).get ⟨i, hi⟩).return_on_assets
          (listMin ((surviving_rows exDf ("P1") exStocks).map roaVal))
          (if listMax ((surviving_rows exDf ("P1") exStocks).map roaVal) ≠
              listMin ((surviving_rows exDf ("P1") exStocks).map roaVal) then
            listMax ((surviving_rows exDf ("P1") exStocks).map roaVal) -
              listMin ((surviving_rows exDf ("P1") exStocks).map roaVal) else 1)).1) ∧
      (build_spec (surviving_rows exDf ("P1") exStocks) ("P1")).edge_colors[i]? =
        some ((point_colors
          ((surviving_rows exDf ("P1") exStocks).get ⟨i, hi⟩).return_on_assets
          (listMin ((surviving_rows exDf ("P1") exStocks).map roaVal))
          (if listMax ((surviving_rows exDf ("P1") exStocks).map roaVal) ≠
              listMin ((surviving_rows exDf ("P1") exStocks).map roaVal) then
            listMax ((surviving_rows exDf ("P1") exStocks).map roaVal) -
              listMin ((surviving_rows exDf ("P1") exStocks).map roaVal) else 1)).2) ∧
      (build_spec (surviving_rows exDf ("P1") exStocks) ("P1")).text_labels[i]? =
        some ((label_and_size
          (bubble_size_of ((surviving_rows exDf ("P1") exStocks).get ⟨i, hi⟩))
          ((surviving_rows exDf ("P1") exStocks).get ⟨i, hi⟩).entity_name).1) ∧
      (build_spec (surviving_rows exDf ("P1") exStocks) ("P1")).text_sizes[i]? =
        some ((label_and_size
          (bubble_size_of ((surviving_rows exDf ("P1") exStocks).get ⟨i, hi⟩))
          ((surviving_rows exDf ("P1") exStocks).get ⟨i, hi⟩).entity_name).2) ∧
      (build_spec (surviving_rows exDf ("P1") exStocks) ("P1")).customdata[i]? =
        some ((surviving_rows exDf ("P1") exStocks).get ⟨i, hi⟩).entity_name) :=
  C10_parallel_lengths exDf ("P1") exStocks
    (build_spec (surviving_rows exDf ("P1") exStocks) ("P1")) (create_of_ne (by decide))

/-- C7: the detail-table formatting renders a present percentage fraction
as its value times 100 with exactly two decimals and a percent sign
(0.1234 renders as 12.34%), a present turnover ratio with exactly three
decimals, and any missing value as the literal N/A. -/
theorem C7_display_formatting (q : ℚ) :
    format_pct (some ((1234 : ℚ) / 10000)) = ("12.34%") ∧
    format_pct none = ("N/A") ∧
    format_turnover Cell.na = ("N/A") ∧
    format_pct (some q) = fixedDec 2 (q * 100) ++ ("%") ∧
    format_turnover (Cell.num q) = fixedDec 3 q ∧
    (∃ pre f, format_pct (some q) = pre ++ (".") ++ f ++ ("%") ∧ f.length = 2) ∧
    (∃ pre f, format_turnover (Cell.num q) = pre ++ (".") ++ f ∧ f.length = 3) := by
  refine ⟨?_, rfl, rfl, rfl, rfl, ?_, ?_⟩
  · have hs : roundHalfEven ((1234 : ℚ) / 10000 * 100 * (10 : ℚ) ^ (2 : ℕ)) = 1234 := by
      norm_num [roundHalfEven]
    simp only [format_pct, fixedDec, hs]
    decide
  · refine ⟨(if roundHalfEven (q * 100 * (10 : ℚ) ^ (2 : ℕ)) < 0 then ("-") else ("")) ++
      Nat.repr ((roundHalfEven (q * 100 * (10 : ℚ) ^ (2 : ℕ))).natAbs / 10 ^ 2),
      String.mk (natDigits 2 ((roundHalfEven (q * 100 * (10 : ℚ) ^ (2 : ℕ))).natAbs % 10 ^ 2)),
      rfl, ?_⟩
    show (natDigits 2 ((roundHalfEven (q * 100 * (10 : ℚ) ^ (2 : ℕ))).natAbs % 10 ^ 2)).length = 2
    exact natDigits_length 2 _
  · refine ⟨(if roundHalfEven (q * (10 : ℚ) ^ (3 : ℕ)) < 0 then ("-") else ("")) ++
      Nat.repr ((roundHalfEven (q * (10 : ℚ) ^ (3 : ℕ))).natAbs / 10 ^ 3),
      String.mk (natDigits 3 ((roundHalfEven (q * (10 : ℚ) ^ (3 : ℕ))).natAbs % 10 ^ 3)),
      rfl, ?_⟩
    show (natDigits 3 ((roundHalfEven (q * (10 : ℚ) ^ (3 : ℕ))).natAbs % 10 ^ 3)).length = 3
    exact natDigits_length 3 _

/-- C8 counterexample: on a table whose periods are 20241231 and the
strictly larger 20991231, the code defaults to the hard-coded 20241231,
not to the most recent period of the table. -/
theorem C8_default_period_cex :
    exDf8 ≠ [] ∧
    default_period exDf8 = ("20241231") ∧
    most_recent_period exDf8 = ("20991231") ∧
    default_period exDf8 ≠ most_recent_period exDf8 := by
  refine ⟨by decide, by decide, by decide, by decide⟩

/-- C8 (amended): the default period is the hard-coded literal 20241231
whenever that period occurs in the table, and only otherwise the
lexicographically largest (most recent) of the distinct period values. -/
theorem C8_default_period_amended (df : List Row) :
    ((periods_of df).contains ("20241231") = true → default_period df = ("20241231")) ∧
    ((periods_of df).contains ("20241231") = false →
      default_period df = most_recent_period df) := by
  constructor
  · intro h
    simp only [default_period]
    rw [h]
    rfl
  · intro h
    simp only [default_period, h, Bool.false_eq_true, if_false]
    unfold periods_of most_recent_period
    exact headD_sortDesc _

/-- Witness for the amended C8: both branches at concrete tables. -/
theorem C8_default_period_witness :
    default_period exDf8 = ("20241231") ∧
    default_period exDf = most_recent_period exDf :=
  ⟨(C8_default_period_amended exDf8).1 (by decide),
   (C8_default_period_amended exDf).2 (by decide)⟩
